import Mathlib

/-! AuthSecure JavaScript client: shallow embedding of `src/authsecure.js`

The class `AuthSecure` is embedded as pure functions over an explicit system
state (`Sys`): the fields of the client object, the lines written to the
console, and the payloads handed to the HTTP transport.  The two things the
code obtains from outside, the outcome of `execSync` and the outcome of
`axios.post`, are explicit arguments of the operations that consume them.

JavaScript values are data values: `undefined`, `null`, booleans, numbers,
strings, arrays and plain objects, which is what a parsed response body holds
and what a host passes as configuration and arguments.  The program does no
arithmetic; a number is only tested for truthiness and converted to text, so
it is represented by the text `Number.prototype.toString` gives it.
-/

namespace AuthSecureJS

/-! ## JavaScript values -/

/-- JavaScript values that reach this program: `undefined`, `null`, booleans,
numbers, strings, arrays and plain objects (an object is its list of own
properties, in insertion order; property values are data, never functions).
A number is identified by its `ToString` text: `"0"` for `+0` and `-0`,
`"NaN"`, `"Infinity"`, `"-1.5"`, `"1e+21"`, `"9007199254740992"` and so on. -/
inductive JVal where
  | undefined : JVal
  | null : JVal
  | bool (b : Bool) : JVal
  | num (text : String) : JVal
  | str (s : String) : JVal
  | arr (items : List JVal) : JVal
  | obj (fields : List (String × JVal)) : JVal

/-- Faults a JavaScript expression of this program can raise. -/
inductive JErr where
  | typeError (what : String) : JErr

/-- Text of the fault `e`, what `err.message` reads. -/
def JErr.message : JErr → String
  | .typeError what => what

/-- JavaScript `ToBoolean`: `undefined`, `null`, `false`, the numbers `0`
(`+0`, `-0`) and `NaN`, and `""` are falsy; every other value (objects and
arrays included) is truthy. -/
def truthy : JVal → Bool
  | .undefined => false
  | .null => false
  | .bool b => b
  | .num text => text != "0" && text != "NaN"
  | .str s => s != ""
  | .arr _ => true
  | .obj _ => true

/-- JavaScript `a || b`: `a` when it is truthy, otherwise `b`. -/
def jsOr (a b : JVal) : JVal :=
  if truthy a then a else b

/-- Own-property lookup in an object's field list; a missing key reads as
`undefined`. -/
def lookupField (fields : List (String × JVal)) (key : String) : JVal :=
  match fields.lookup key with
  | some v => v
  | none => JVal.undefined

/-- Property read `v.key`.  Reading a property of `undefined` or `null` raises
a `TypeError`; a plain object yields the own property or `undefined`; on the
other values the keys this program reads (`success`, `sessionid`, `message`,
`info`, `username`, `hwid`, `ip`, `subscriptions`, `subscription`, `expiry`,
and the four configuration keys) are not built-in properties, so the read
yields `undefined`. -/
def getProp (v : JVal) (key : String) : Except JErr JVal :=
  match v with
  | .undefined => .error (.typeError ("Cannot read properties of undefined (reading " ++ key ++ ")"))
  | .null => .error (.typeError ("Cannot read properties of null (reading " ++ key ++ ")"))
  | .obj fields => .ok (lookupField fields key)
  | _ => .ok JVal.undefined

/-- The text one array element contributes to a join, given the result of
converting it: `undefined` and `null` contribute the empty string and are not
converted. -/
def jsElementText (v : JVal) (converted : Except JErr String) : Except JErr String :=
  match v with
  | .undefined => .ok ""
  | .null => .ok ""
  | _ => converted

mutual
/-- JavaScript `ToString`, as applied by a template literal and by the
conversion of a `URLSearchParams` value.  An array converts through `join`.
A plain object converts through the inherited `Object.prototype.toString`,
giving `"[object Object]"`, unless it has an own `toString` property: that
property holds data, not a function, and the inherited `valueOf` returns the
object itself, so the conversion raises a `TypeError`. -/
def jsToString : JVal → Except JErr String
  | .undefined => .ok "undefined"
  | .null => .ok "null"
  | .bool true => .ok "true"
  | .bool false => .ok "false"
  | .num text => .ok text
  | .str s => .ok s
  | .arr items => jsJoin items
  | .obj fields =>
    match fields.lookup "toString" with
    | some _ => .error (.typeError "Cannot convert object to primitive value")
    | none => .ok "[object Object]"
/-- The text `Array.prototype.join(",")` produces: elements are converted
left to right, `undefined` and `null` elements contribute the empty string,
and a fault of an element's conversion is the fault of the join. -/
def jsJoin : List JVal → Except JErr String
  | [] => .ok ""
  | [v] => jsElementText v (jsToString v)
  | v :: rest =>
    match jsElementText v (jsToString v) with
    | .error e => .error e
    | .ok first =>
      match jsJoin rest with
      | .error e => .error e
      | .ok more => .ok (first ++ "," ++ more)
end

/-- Code points removed by `String.prototype.trim`: the ECMAScript WhiteSpace
and LineTerminator characters. -/
def isJsWhitespace (c : Char) : Bool :=
  let n := c.toNat
  n == 0x09 || n == 0x0A || n == 0x0B || n == 0x0C || n == 0x0D || n == 0x20 ||
  n == 0xA0 || n == 0x1680 || (0x2000 ≤ n && n ≤ 0x200A) || n == 0x2028 ||
  n == 0x2029 || n == 0x202F || n == 0x205F || n == 0x3000 || n == 0xFEFF

/-- Trimming on the character list: drop leading and trailing whitespace. -/
def trimChars (cs : List Char) : List Char :=
  ((cs.dropWhile isJsWhitespace).reverse.dropWhile isJsWhitespace).reverse

/-- JavaScript `String.prototype.trim`. -/
def jsTrim (s : String) : String :=
  String.mk (trimChars s.data)

/-! ## System state and effects -/

/-- The fields of an `AuthSecure` instance. -/
structure AuthSecure where
  name : JVal
  ownerid : JVal
  secret : JVal
  version : JVal
  sessionid : JVal
  BASE_URL : String

/-- One call of `console.log` (`isError = false`) or `console.error`
(`isError = true`) with its argument list. -/
structure ConsoleCall where
  isError : Bool
  args : List JVal

/-- One call `this.sendRequest(payload)`: the endpoint of the client and the
payload object passed in. -/
structure Request where
  url : String
  payload : List (String × JVal)

/-- One call `axios.post(url, params)`: the endpoint and the name/value pairs
of the `URLSearchParams` object that is posted. -/
structure Post where
  url : String
  params : List (String × String)

/-- The observable system: the client object, the console output so far, the
payloads passed to `sendRequest` so far and the posts made through `axios` so
far. -/
structure Sys where
  client : AuthSecure
  console : List ConsoleCall
  requests : List Request
  posts : List Post

/-- How a piece of code finishes: normally with a value, with a thrown fault
(a rejected promise for the `async` methods), or by `process.exit(code)`. -/
inductive Res (α : Type) where
  | ok (a : α) : Res α
  | throw (e : JErr) : Res α
  | exit (code : Nat) : Res α

/-- Effectful computations over the system state. -/
def Eff (α : Type) : Type := Sys → Res α × Sys

/-- Sequencing: a throw or a process exit skips the rest. -/
def Eff.bind {α β : Type} (m : Eff α) (f : α → Eff β) : Eff β := fun s =>
  match m s with
  | (Res.ok a, s1) => f a s1
  | (Res.throw e, s1) => (Res.throw e, s1)
  | (Res.exit code, s1) => (Res.exit code, s1)

instance : Monad Eff where
  pure a := fun s => (Res.ok a, s)
  bind := Eff.bind

/-- Lift a property read: a `TypeError` becomes a throw. -/
def liftExcept {α : Type} (r : Except JErr α) : Eff α := fun s =>
  match r with
  | .ok a => (Res.ok a, s)
  | .error e => (Res.throw e, s)

/-- Effect `console.log(...args)`. -/
def consoleLog (args : List JVal) : Eff Unit := fun s =>
  (Res.ok (), { s with console := s.console ++ [ConsoleCall.mk false args] })

/-- Effect `console.error(...args)`. -/
def consoleError (args : List JVal) : Eff Unit := fun s =>
  (Res.ok (), { s with console := s.console ++ [ConsoleCall.mk true args] })

/-- Effect `process.exit(code)`: never returns. -/
def processExit {α : Type} (code : Nat) : Eff α := fun s => (Res.exit code, s)

/-- Effect `this.sessionid = v`. -/
def setSessionid (v : JVal) : Eff Unit := fun s =>
  (Res.ok (), { s with client := { s.client with sessionid := v } })

/-- Read access to `this`. -/
def getThis : Eff AuthSecure := fun s => (Res.ok s.client, s)

/-- What `execSync(...)` does: it returns the command's output as a string,
or throws (command missing, non-zero status). -/
inductive ExecResult where
  | output (text : String) : ExecResult
  | throws : ExecResult

/-- What `await axios.post(...)` does: it resolves with a response whose
`data` is the parsed body, or rejects with an error carrying `message`. -/
inductive HttpResult where
  | data (body : JVal) : HttpResult
  | error (message : JVal) : HttpResult

/-! ## The class `AuthSecure` -/

/-- The constructor: copies the four configuration properties of `config`,
sets `sessionid` to `null` and fixes the endpoint. -/
def AuthSecure.constructor (config : JVal) : Except JErr AuthSecure := do
  let name ← getProp config "name"
  let ownerid ← getProp config "ownerid"
  let secret ← getProp config "secret"
  let version ← getProp config "version"
  pure { name := name, ownerid := ownerid, secret := secret, version := version,
         sessionid := JVal.null, BASE_URL := "https://authsecure.shop/post/api.php" }

/-- The conversion `new URLSearchParams(payload)` of a payload object: every
value is converted to a string with `ToString`, in key order; the first value
that cannot be converted makes the constructor throw. -/
def URLSearchParams : List (String × JVal) → Except JErr (List (String × String))
  | [] => .ok []
  | (key, value) :: rest =>
    match jsToString value with
    | .error e => .error e
    | .ok text =>
      match URLSearchParams rest with
      | .error e => .error e
      | .ok params => .ok ((key, text) :: params)

/-- The `catch` block of `sendRequest`: log the error message with
`console.error` and exit the process with code 1. -/
def sendRequestCatch {α : Type} (message : JVal) : Eff α := do
  consoleError [JVal.str "❌ HTTP Error:", message]
  processExit 1

/-- Method `sendRequest(payload)`: converts the payload with
`new URLSearchParams(payload)`, posts the result to `BASE_URL` and returns
`response.data`.  A fault of the conversion and an error of the post both end
in the `catch` block. -/
def sendRequest (payload : List (String × JVal)) (http : HttpResult) : Eff JVal := do
  let this ← getThis
  (fun s => (Res.ok (), { s with requests := s.requests ++ [Request.mk this.BASE_URL payload] }))
  match URLSearchParams payload with
  | .error e => sendRequestCatch (JVal.str e.message)
  | .ok params => do
    (fun s => (Res.ok (), { s with posts := s.posts ++ [Post.mk this.BASE_URL params] }))
    match http with
    | .data body => pure body
    | .error message => sendRequestCatch message

/-- Method `getHWID()`: the trimmed output of the identity command, or
`"UNKNOWN_HWID"` when that is empty or the command throws. -/
def getHWID (exec : ExecResult) : JVal :=
  match exec with
  | .output text => jsOr (JVal.str (jsTrim text)) (JVal.str "UNKNOWN_HWID")
  | .throws => JVal.str "UNKNOWN_HWID"

/-- The text of one subscription line,
`  - ${sub.subscription} | Expires: ${sub.expiry}`. -/
def subscriptionLine (sub : JVal) : Except JErr String := do
  let label ← getProp sub "subscription"
  let labelText ← jsToString label
  let expiry ← getProp sub "expiry"
  let expiryText ← jsToString expiry
  pure ("  - " ++ labelText ++ " | Expires: " ++ expiryText)

/-- The loop `for (const sub of subs) console.log(...)` over an array. -/
def printSubscriptions : List JVal → Eff Unit
  | [] => pure ()
  | sub :: rest => do
      let line ← liftExcept (subscriptionLine sub)
      consoleLog [JVal.str line]
      printSubscriptions rest

/-- The values a `for ... of` loop visits: the elements of an array, the code
points of a string; any other truthy value is not iterable. -/
def iterate (v : JVal) : Except JErr (List JVal) :=
  match v with
  | .arr items => .ok items
  | .str s => .ok (s.data.map (fun c => JVal.str (String.mk [c])))
  | _ => .error (.typeError "info.subscriptions is not iterable")

/-- Method `printUserInfo(info)`. -/
def printUserInfo (info : JVal) : Eff Unit := do
  consoleLog [JVal.str "\n👤 User Info:"]
  let username ← liftExcept (getProp info "username")
  consoleLog [JVal.str " Username:", username]
  let hwid ← liftExcept (getProp info "hwid")
  consoleLog [JVal.str " HWID:", hwid]
  let ip ← liftExcept (getProp info "ip")
  consoleLog [JVal.str " IP:", ip]
  let subscriptions ← liftExcept (getProp info "subscriptions")
  if truthy subscriptions then do
    consoleLog [JVal.str " Subscriptions:"]
    let subs ← liftExcept (iterate subscriptions)
    printSubscriptions subs
  else
    pure ()

/-- The payload object literal of `Init`. -/
def initPayload (this : AuthSecure) : List (String × JVal) :=
  [("type", JVal.str "init"),
   ("name", this.name),
   ("ownerid", this.ownerid),
   ("secret", this.secret),
   ("ver", this.version)]

/-- Method `Init()`. -/
def Init (http : HttpResult) : Eff Unit := do
  consoleLog [JVal.str "Connecting..."]
  let this ← getThis
  let resp ← sendRequest (initPayload this) http
  let success ← liftExcept (getProp resp "success")
  if truthy success then do
    let sessionid ← liftExcept (getProp resp "sessionid")
    setSessionid sessionid
    consoleLog [JVal.str "✅ Initialized Successfully!"]
  else do
    let message ← liftExcept (getProp resp "message")
    consoleLog [JVal.str "❌ Init Failed:", jsOr message (JVal.str "Unknown error")]
    processExit 1

/-- The payload object literal of `Login`. -/
def loginPayload (this : AuthSecure) (username password : JVal) (exec : ExecResult) :
    List (String × JVal) :=
  [("type", JVal.str "login"),
   ("sessionid", this.sessionid),
   ("username", username),
   ("pass", password),
   ("hwid", getHWID exec),
   ("name", this.name),
   ("ownerid", this.ownerid)]

/-- The payload object literal of `Register`. -/
def registerPayload (this : AuthSecure) (username password license : JVal) (exec : ExecResult) :
    List (String × JVal) :=
  [("type", JVal.str "register"),
   ("sessionid", this.sessionid),
   ("username", username),
   ("pass", password),
   ("license", license),
   ("hwid", getHWID exec),
   ("name", this.name),
   ("ownerid", this.ownerid)]

/-- The payload object literal of `License`. -/
def licensePayload (this : AuthSecure) (license : JVal) (exec : ExecResult) :
    List (String × JVal) :=
  [("type", JVal.str "license"),
   ("sessionid", this.sessionid),
   ("license", license),
   ("hwid", getHWID exec),
   ("name", this.name),
   ("ownerid", this.ownerid)]

/-- The branch on `resp.success` shared in shape by `Login`, `Register` and
`License`: the success line followed by `printUserInfo(resp.info)`, or the
failure line with `resp.message || "Unknown error"`. -/
def handleUserResponse (okLine failLine : String) (resp : JVal) : Eff Unit := do
  let success ← liftExcept (getProp resp "success")
  if truthy success then do
    consoleLog [JVal.str okLine]
    let info ← liftExcept (getProp resp "info")
    printUserInfo info
  else do
    let message ← liftExcept (getProp resp "message")
    consoleLog [JVal.str failLine, jsOr message (JVal.str "Unknown error")]

/-- Method `Login(username, password)`. -/
def Login (username password : JVal) (exec : ExecResult) (http : HttpResult) : Eff Unit := do
  let this ← getThis
  let resp ← sendRequest (loginPayload this username password exec) http
  handleUserResponse "✅ Logged in!" "❌ Login Failed:" resp

/-- Method `Register(username, password, license)`. -/
def Register (username password license : JVal) (exec : ExecResult) (http : HttpResult) :
    Eff Unit := do
  let this ← getThis
  let resp ← sendRequest (registerPayload this username password license exec) http
  handleUserResponse "✅ Registered Successfully!" "❌ Register Failed:" resp

/-- Method `License(license)`. -/
def License (license : JVal) (exec : ExecResult) (http : HttpResult) : Eff Unit := do
  let this ← getThis
  let resp ← sendRequest (licensePayload this license exec) http
  handleUserResponse "✅ License Login Successful!" "❌ License Login Failed:" resp

/-! ## Sequences of calls on one client -/

/-- One method call made by the host program, together with what the outside
world answers during it. -/
inductive Call where
  | init (http : HttpResult) : Call
  | login (username password : JVal) (exec : ExecResult) (http : HttpResult) : Call
  | register (username password license : JVal) (exec : ExecResult) (http : HttpResult) : Call
  | license (license : JVal) (exec : ExecResult) (http : HttpResult) : Call

/-- Run one call. -/
def Call.run : Call → Eff Unit
  | .init http => Init http
  | .login u p exec http => Login u p exec http
  | .register u p l exec http => Register u p l exec http
  | .license l exec http => License l exec http

/-- Whether the call is `Init`. -/
def Call.isInit : Call → Bool
  | .init _ => true
  | _ => false

/-- Run a sequence of calls in order.  A `process.exit` ends the run with its
code; a thrown fault rejects only that call's promise and the host may go on
to the next call. -/
def runCalls (s : Sys) : List Call → Sys × Option Nat
  | [] => (s, none)
  | c :: rest =>
    match c.run s with
    | (Res.exit code, s1) => (s1, some code)
    | (_, s1) => runCalls s1 rest

/-- A freshly constructed client with nothing logged or sent yet. -/
def freshSys (client : AuthSecure) : Sys :=
  { client := client, console := [], requests := [], posts := [] }

/-! ## Auxiliary definitions for the statements -/

/-- The line `console.log(...args)` appends. -/
def logged (args : List JVal) : ConsoleCall := ConsoleCall.mk false args

/-- The line the `catch` block of `sendRequest` writes with `console.error`. -/
def httpErrorLine (message : JVal) : ConsoleCall :=
  ConsoleCall.mk true [JVal.str "❌ HTTP Error:", message]

/-- The record of the call `this.sendRequest(payload)`. -/
def requestOf (this : AuthSecure) (payload : List (String × JVal)) : Request :=
  Request.mk this.BASE_URL payload

/-- The record of the call `axios.post(this.BASE_URL, params)`. -/
def postOf (this : AuthSecure) (params : List (String × String)) : Post :=
  Post.mk this.BASE_URL params

/-- A computation that leaves the client object, the list of `sendRequest`
calls and the list of posts as they were (it may write to the console). -/
def Frame {α : Type} (m : Eff α) : Prop :=
  ∀ s : Sys, (m s).2.client = s.client ∧ (m s).2.requests = s.requests ∧
    (m s).2.posts = s.posts

/-- The client of the running examples. -/
def demoClient : AuthSecure :=
  { name := JVal.str "MyApp", ownerid := JVal.str "owner01", secret := JVal.str "s3cr3t",
    version := JVal.str "1.0", sessionid := JVal.null,
    BASE_URL := "https://authsecure.shop/post/api.php" }

/-- The configuration object the running examples construct their client
from. -/
def demoConfig : JVal :=
  JVal.obj [("name", JVal.str "MyApp"), ("ownerid", JVal.str "owner01"),
    ("secret", JVal.str "s3cr3t"), ("version", JVal.str "1.0")]

/-- The text form of the `Init` payload of `demoClient`. -/
def demoInitParams : List (String × String) :=
  [("type", "init"), ("name", "MyApp"), ("ownerid", "owner01"), ("secret", "s3cr3t"),
   ("ver", "1.0")]

/-- An `Init` answer that grants the session `"S1"`. -/
def demoInitOk : HttpResult :=
  HttpResult.data (JVal.obj [("success", JVal.bool true), ("sessionid", JVal.str "S1")])

/-- An `Init` answer that grants a different session, `"S2"`. -/
def demoInitOther : HttpResult :=
  HttpResult.data (JVal.obj [("success", JVal.bool true), ("sessionid", JVal.str "S2")])

/-- A rejection without a `message` field. -/
def demoRejected : HttpResult :=
  HttpResult.data (JVal.obj [("success", JVal.bool false)])

/-- A login that is rejected, then a license redemption that hits a transport
error. -/
def demoCalls : List Call :=
  [Call.login (JVal.str "alice") (JVal.str "p1") ExecResult.throws demoRejected,
   Call.license (JVal.str "KEY-1") (ExecResult.output "S-1-5-21\r\n")
     (HttpResult.error (JVal.str "timeout"))]

/-- The rejection of the spec's scenario, `success: false` with the message
`"App paused"`. -/
def demoPaused : List (String × JVal) :=
  [("success", JVal.bool false), ("message", JVal.str "App paused")]

/-- A rejection whose message is the empty string. -/
def demoEmptyMessage : List (String × JVal) :=
  [("success", JVal.bool false), ("message", JVal.str "")]

/-- The user record of the spec's login scenario. -/
def demoInfo : List (String × JVal) :=
  [("username", JVal.str "bob"), ("hwid", JVal.str "XYZ"), ("ip", JVal.str "1.2.3.4"),
   ("subscriptions", JVal.arr [JVal.obj [("subscription", JVal.str "premium"),
      ("expiry", JVal.str "2025-01-01")]])]

/-- The successful login response of the spec's scenario. -/
def demoLoginOk : List (String × JVal) :=
  [("success", JVal.bool true), ("info", JVal.obj demoInfo)]

/-- The text form of the `Login("bob", "pw1")` payload of `demoClient` when
the identity command throws. -/
def demoLoginParams : List (String × String) :=
  [("type", "login"), ("sessionid", "null"), ("username", "bob"), ("pass", "pw1"),
   ("hwid", "UNKNOWN_HWID"), ("name", "MyApp"), ("ownerid", "owner01")]

/-! ## Basic facts about the effect layer -/

theorem Eff.bind_apply {α β : Type} (m : Eff α) (f : α → Eff β) (s : Sys) :
    (m >>= f) s = Eff.bind m f s := rfl

theorem Eff.pure_apply {α : Type} (a : α) (s : Sys) :
    (pure a : Eff α) s = (Res.ok a, s) := rfl

/-- When every payload value converts, `sendRequest` records the call, posts
the converted parameters and returns the body the transport answers. -/
theorem sendRequest_data (payload : List (String × JVal)) (params : List (String × String))
    (hconv : URLSearchParams payload = Except.ok params) (body : JVal) (s : Sys) :
    sendRequest payload (HttpResult.data body) s = (Res.ok body,
      { s with
        requests := s.requests ++ [requestOf s.client payload],
        posts := s.posts ++ [postOf s.client params] }) := by
  simp [sendRequest, Eff.bind_apply, Eff.pure_apply, Eff.bind, getThis, hconv, requestOf, postOf]

/-- When a payload value cannot be converted, `sendRequest` posts nothing,
logs the fault as an HTTP error and exits with code 1. -/
theorem sendRequest_unconvertible (payload : List (String × JVal)) (e : JErr)
    (hconv : URLSearchParams payload = Except.error e) (http : HttpResult) (s : Sys) :
    sendRequest payload http s = (Res.exit 1,
      { s with
        console := s.console ++ [httpErrorLine (JVal.str e.message)],
        requests := s.requests ++ [requestOf s.client payload] }) := by
  simp [sendRequest, Eff.bind_apply, Eff.bind, getThis, hconv, requestOf, sendRequestCatch,
    consoleError, processExit, httpErrorLine]

/-- When the post itself fails, `sendRequest` logs the error and exits with
code 1. -/
theorem sendRequest_error (payload : List (String × JVal)) (params : List (String × String))
    (hconv : URLSearchParams payload = Except.ok params) (message : JVal) (s : Sys) :
    sendRequest payload (HttpResult.error message) s = (Res.exit 1,
      { s with
        console := s.console ++ [httpErrorLine message],
        requests := s.requests ++ [requestOf s.client payload],
        posts := s.posts ++ [postOf s.client params] }) := by
  simp [sendRequest, Eff.bind_apply, Eff.bind, getThis, hconv, requestOf, postOf,
    sendRequestCatch, consoleError, processExit, httpErrorLine]

theorem sendRequest_bind_data {β : Type} (payload : List (String × JVal))
    (params : List (String × String)) (hconv : URLSearchParams payload = Except.ok params)
    (body : JVal) (k : JVal → Eff β) (s : Sys) :
    (sendRequest payload (HttpResult.data body) >>= k) s
      = k body { s with
          requests := s.requests ++ [requestOf s.client payload],
          posts := s.posts ++ [postOf s.client params] } := by
  rw [Eff.bind_apply]
  unfold Eff.bind
  rw [sendRequest_data payload params hconv body s]

theorem sendRequest_bind_unconvertible {β : Type} (payload : List (String × JVal)) (e : JErr)
    (hconv : URLSearchParams payload = Except.error e) (http : HttpResult)
    (k : JVal → Eff β) (s : Sys) :
    (sendRequest payload http >>= k) s = (Res.exit 1,
      { s with
        console := s.console ++ [httpErrorLine (JVal.str e.message)],
        requests := s.requests ++ [requestOf s.client payload] }) := by
  rw [Eff.bind_apply]
  unfold Eff.bind
  rw [sendRequest_unconvertible payload e hconv http s]

theorem sendRequest_bind_error {β : Type} (payload : List (String × JVal))
    (params : List (String × String)) (hconv : URLSearchParams payload = Except.ok params)
    (message : JVal) (k : JVal → Eff β) (s : Sys) :
    (sendRequest payload (HttpResult.error message) >>= k) s = (Res.exit 1,
      { s with
        console := s.console ++ [httpErrorLine message],
        requests := s.requests ++ [requestOf s.client payload],
        posts := s.posts ++ [postOf s.client params] }) := by
  rw [Eff.bind_apply]
  unfold Eff.bind
  rw [sendRequest_error payload params hconv message s]

/-! ## Frame lemmas: what the response handling cannot touch -/

theorem Frame.pure {α : Type} (a : α) : Frame (pure a : Eff α) := fun _ => ⟨rfl, rfl, rfl⟩

theorem Frame.consoleLog (args : List JVal) : Frame (consoleLog args) :=
  fun _ => ⟨rfl, rfl, rfl⟩

theorem Frame.liftExcept {α : Type} (r : Except JErr α) : Frame (liftExcept r) := by
  intro s
  cases r <;> exact ⟨rfl, rfl, rfl⟩

theorem Frame.bind {α β : Type} {m : Eff α} {f : α → Eff β} (hm : Frame m)
    (hf : ∀ a, Frame (f a)) : Frame (m >>= f) := by
  intro s
  have h := hm s
  rw [Eff.bind_apply]
  unfold Eff.bind
  rcases hms : m s with ⟨r, s1⟩
  rw [hms] at h
  cases r with
  | ok a =>
    have h2 := hf a s1
    exact ⟨h2.1.trans h.1, h2.2.1.trans h.2.1, h2.2.2.trans h.2.2⟩
  | throw e => exact h
  | exit code => exact h

theorem Frame.printSubscriptions (subs : List JVal) : Frame (printSubscriptions subs) := by
  induction subs with
  | nil => exact Frame.pure ()
  | cons sub rest ih =>
    unfold AuthSecureJS.printSubscriptions
    exact Frame.bind (Frame.liftExcept _) (fun _ => Frame.bind (Frame.consoleLog _) (fun _ => ih))

theorem Frame.printUserInfo (info : JVal) : Frame (printUserInfo info) := by
  unfold AuthSecureJS.printUserInfo
  refine Frame.bind (Frame.consoleLog _) (fun _ => ?_)
  refine Frame.bind (Frame.liftExcept _) (fun _ => ?_)
  refine Frame.bind (Frame.consoleLog _) (fun _ => ?_)
  refine Frame.bind (Frame.liftExcept _) (fun _ => ?_)
  refine Frame.bind (Frame.consoleLog _) (fun _ => ?_)
  refine Frame.bind (Frame.liftExcept _) (fun _ => ?_)
  refine Frame.bind (Frame.consoleLog _) (fun _ => ?_)
  refine Frame.bind (Frame.liftExcept _) (fun subscriptions => ?_)
  cases truthy subscriptions
  · exact Frame.pure ()
  · exact Frame.bind (Frame.consoleLog _) (fun _ =>
      Frame.bind (Frame.liftExcept _) (fun subs => Frame.printSubscriptions subs))

theorem Frame.handleUserResponse (okLine failLine : String) (resp : JVal) :
    Frame (handleUserResponse okLine failLine resp) := by
  unfold AuthSecureJS.handleUserResponse
  refine Frame.bind (Frame.liftExcept _) (fun success => ?_)
  cases truthy success
  · exact Frame.bind (Frame.liftExcept _) (fun _ => Frame.consoleLog _)
  · exact Frame.bind (Frame.consoleLog _) (fun _ =>
      Frame.bind (Frame.liftExcept _) (fun info => Frame.printUserInfo info))

/-- After `sendRequest`, whatever the conversion and the transport do, the
client object is unchanged and exactly the one call has been recorded. -/
theorem sendRequest_then (payload : List (String × JVal)) (http : HttpResult)
    (k : JVal → Eff Unit) (hk : ∀ resp, Frame (k resp)) (s : Sys) :
    ((sendRequest payload http >>= k) s).2.client = s.client ∧
    ((sendRequest payload http >>= k) s).2.requests
      = s.requests ++ [requestOf s.client payload] := by
  cases hconv : URLSearchParams payload with
  | error e =>
    rw [sendRequest_bind_unconvertible payload e hconv http k s]
    exact ⟨rfl, rfl⟩
  | ok params =>
    cases http with
    | data body =>
      rw [sendRequest_bind_data payload params hconv body k s]
      have h := hk body { s with
        requests := s.requests ++ [requestOf s.client payload],
        posts := s.posts ++ [postOf s.client params] }
      exact ⟨h.1, h.2.1⟩
    | error message =>
      rw [sendRequest_bind_error payload params hconv message k s]
      exact ⟨rfl, rfl⟩

theorem Login_frame (u p : JVal) (exec : ExecResult) (http : HttpResult) (s : Sys) :
    (Login u p exec http s).2.client = s.client ∧
    (Login u p exec http s).2.requests
      = s.requests ++ [requestOf s.client (loginPayload s.client u p exec)] :=
  sendRequest_then _ http _ (fun resp => Frame.handleUserResponse _ _ resp) s

theorem Register_frame (u p l : JVal) (exec : ExecResult) (http : HttpResult) (s : Sys) :
    (Register u p l exec http s).2.client = s.client ∧
    (Register u p l exec http s).2.requests
      = s.requests ++ [requestOf s.client (registerPayload s.client u p l exec)] :=
  sendRequest_then _ http _ (fun resp => Frame.handleUserResponse _ _ resp) s

theorem License_frame (l : JVal) (exec : ExecResult) (http : HttpResult) (s : Sys) :
    (License l exec http s).2.client = s.client ∧
    (License l exec http s).2.requests
      = s.requests ++ [requestOf s.client (licensePayload s.client l exec)] :=
  sendRequest_then _ http _ (fun resp => Frame.handleUserResponse _ _ resp) s

/-! ## C2: the session id and the configuration are fixed outside `Init` -/

theorem Call.run_not_init (c : Call) (hc : c.isInit = false) (s : Sys) :
    (c.run s).2.client = s.client ∧
    ∃ req : Request, (c.run s).2.requests = s.requests ++ [req] ∧
      req.payload.lookup "sessionid" = some s.client.sessionid := by
  cases c with
  | init http => simp [Call.isInit] at hc
  | login u p exec http =>
    exact ⟨(Login_frame u p exec http s).1, _, (Login_frame u p exec http s).2, rfl⟩
  | register u p l exec http =>
    exact ⟨(Register_frame u p l exec http s).1, _, (Register_frame u p l exec http s).2, rfl⟩
  | license l exec http =>
    exact ⟨(License_frame l exec http s).1, _, (License_frame l exec http s).2, rfl⟩

theorem runCalls_not_init (cs : List Call) :
    ∀ s : Sys, (∀ c ∈ cs, c.isInit = false) →
      (runCalls s cs).1.client = s.client ∧
      ∃ sent : List Request, (runCalls s cs).1.requests = s.requests ++ sent ∧
        sent.length ≤ cs.length ∧
        ∀ r ∈ sent, r.payload.lookup "sessionid" = some s.client.sessionid := by
  induction cs with
  | nil =>
    intro s _
    exact ⟨rfl, [], by simp [runCalls], by simp, by simp⟩
  | cons c rest ih =>
    intro s h
    have hc : c.isInit = false := h c (List.mem_cons_self _ _)
    have hrest : ∀ d ∈ rest, d.isInit = false := fun d hd => h d (List.mem_cons_of_mem _ hd)
    obtain ⟨hcl, req, hreq, hsid⟩ := Call.run_not_init c hc s
    rcases hrun : c.run s with ⟨r, s1⟩
    rw [hrun] at hcl hreq
    simp only at hcl hreq
    have hexit : ∀ code, r = Res.exit code →
        (runCalls s (c :: rest)).1.client = s.client ∧
        ∃ sent : List Request, (runCalls s (c :: rest)).1.requests = s.requests ++ sent ∧
          sent.length ≤ (c :: rest).length ∧
          ∀ r ∈ sent, r.payload.lookup "sessionid" = some s.client.sessionid := by
      intro code hr
      subst hr
      refine ⟨by simp [runCalls, hrun, hcl], [req], by simp [runCalls, hrun, hreq], by simp, ?_⟩
      intro r hr
      rw [List.mem_singleton] at hr
      rw [hr]; exact hsid
    have hgo : (runCalls s (c :: rest) = runCalls s1 rest) →
        (runCalls s (c :: rest)).1.client = s.client ∧
        ∃ sent : List Request, (runCalls s (c :: rest)).1.requests = s.requests ++ sent ∧
          sent.length ≤ (c :: rest).length ∧
          ∀ r ∈ sent, r.payload.lookup "sessionid" = some s.client.sessionid := by
      intro heq
      obtain ⟨icl, sent, ireq, ilen, isid⟩ := ih s1 hrest
      rw [heq]
      refine ⟨icl.trans hcl, req :: sent, ?_, by simpa using ilen, ?_⟩
      · rw [ireq, hreq]; simp
      · intro r hr
        rcases List.mem_cons.mp hr with h1 | h1
        · rw [h1]; exact hsid
        · rw [isid r h1, hcl]
    cases r with
    | ok a => exact hgo (by simp [runCalls, hrun])
    | throw e => exact hgo (by simp [runCalls, hrun])
    | exit code => exact hexit code rfl

/-- C2. `Login`, `Register` and `License` leave the whole client object, so
its `sessionid` and its four configuration fields, unchanged in every state
and for every answer of the transport (a response of any shape, or a transport
error).  Hence over every finite sequence of such calls the client is
unchanged and every request sent carries in `sessionid` the session id the
client held when the sequence started, the one stored by the preceding
`Init`. -/
theorem session_and_config_fixed_outside_Init :
    (∀ (s : Sys) (u p : JVal) (exec : ExecResult) (http : HttpResult),
      (Login u p exec http s).2.client = s.client) ∧
    (∀ (s : Sys) (u p l : JVal) (exec : ExecResult) (http : HttpResult),
      (Register u p l exec http s).2.client = s.client) ∧
    (∀ (s : Sys) (l : JVal) (exec : ExecResult) (http : HttpResult),
      (License l exec http s).2.client = s.client) ∧
    (∀ (s0 : Sys) (http0 : HttpResult) (cs : List Call), (∀ c ∈ cs, c.isInit = false) →
      (runCalls (Init http0 s0).2 cs).1.client = (Init http0 s0).2.client ∧
      ∃ sent : List Request,
        (runCalls (Init http0 s0).2 cs).1.requests = (Init http0 s0).2.requests ++ sent ∧
        sent.length ≤ cs.length ∧
        ∀ r ∈ sent, r.payload.lookup "sessionid" = some (Init http0 s0).2.client.sessionid) :=
  ⟨fun s u p exec http => (Login_frame u p exec http s).1,
   fun s u p l exec http => (Register_frame u p l exec http s).1,
   fun s l exec http => (License_frame l exec http s).1,
   fun s0 http0 cs h => runCalls_not_init cs (Init http0 s0).2 h⟩

theorem session_and_config_fixed_outside_Init_witness :
    (∀ c ∈ demoCalls, c.isInit = false) ∧
    (runCalls (Init demoInitOk (freshSys demoClient)).2 demoCalls).1.client
      = (Init demoInitOk (freshSys demoClient)).2.client :=
  have hyp : ∀ c ∈ demoCalls, c.isInit = false := by
    intro c hc
    simp only [demoCalls, List.mem_cons, List.mem_singleton, List.not_mem_nil, or_false] at hc
    rcases hc with h | h <;> rw [h] <;> rfl
  ⟨hyp, (session_and_config_fixed_outside_Init.2.2.2 (freshSys demoClient) demoInitOk
    demoCalls hyp).1⟩

/-! ## C3: the request payloads -/

/-- C3. In every state and for all arguments, the one request `Login` sends
has exactly the keys `type, sessionid, username, pass, hwid, name, ownerid`,
with `type = "login"`, `username` and `pass` the two arguments and `name`,
`ownerid` the configuration values; the request of `Register` has those keys
plus `license` and `type = "register"`; the request of `License` has exactly
`type, sessionid, license, hwid, name, ownerid` with `type = "license"`. -/
theorem request_payload_keys (s : Sys) (u p l : JVal) (exec : ExecResult) (http : HttpResult) :
    (∃ req : Request, (Login u p exec http s).2.requests = s.requests ++ [req] ∧
      req.payload.map Prod.fst
        = ["type", "sessionid", "username", "pass", "hwid", "name", "ownerid"] ∧
      req.payload.lookup "type" = some (JVal.str "login") ∧
      req.payload.lookup "username" = some u ∧
      req.payload.lookup "pass" = some p ∧
      req.payload.lookup "name" = some s.client.name ∧
      req.payload.lookup "ownerid" = some s.client.ownerid) ∧
    (∃ req : Request, (Register u p l exec http s).2.requests = s.requests ++ [req] ∧
      req.payload.map Prod.fst
        = ["type", "sessionid", "username", "pass", "license", "hwid", "name", "ownerid"] ∧
      req.payload.lookup "type" = some (JVal.str "register") ∧
      req.payload.lookup "username" = some u ∧
      req.payload.lookup "pass" = some p ∧
      req.payload.lookup "license" = some l ∧
      req.payload.lookup "name" = some s.client.name ∧
      req.payload.lookup "ownerid" = some s.client.ownerid) ∧
    (∃ req : Request, (License l exec http s).2.requests = s.requests ++ [req] ∧
      req.payload.map Prod.fst = ["type", "sessionid", "license", "hwid", "name", "ownerid"] ∧
      req.payload.lookup "type" = some (JVal.str "license") ∧
      req.payload.lookup "license" = some l ∧
      req.payload.lookup "username" = none ∧
      req.payload.lookup "pass" = none ∧
      req.payload.lookup "name" = some s.client.name ∧
      req.payload.lookup "ownerid" = some s.client.ownerid) :=
  ⟨⟨_, (Login_frame u p exec http s).2, rfl, rfl, rfl, rfl, rfl, rfl⟩,
   ⟨_, (Register_frame u p l exec http s).2, rfl, rfl, rfl, rfl, rfl, rfl, rfl⟩,
   ⟨_, (License_frame l exec http s).2, rfl, rfl, rfl, rfl, rfl, rfl, rfl⟩⟩

/-! ## C4: the machine identity is never empty and never raises -/

theorem getHWID_output (text : String) :
    getHWID (ExecResult.output text)
      = if jsTrim text = "" then JVal.str "UNKNOWN_HWID" else JVal.str (jsTrim text) := by
  by_cases h : jsTrim text = "" <;> simp [getHWID, jsOr, truthy, h]

/-- C4. `getHWID` is a total function of the outcome of the identity command:
it yields `"UNKNOWN_HWID"` when the command throws or when its output is empty
after trimming, and the trimmed output otherwise; in every case the result is
a non-empty string, and it is the `hwid` field of the request sent by `Login`,
`Register` and `License`. -/
theorem getHWID_sentinel_or_trimmed :
    getHWID ExecResult.throws = JVal.str "UNKNOWN_HWID" ∧
    (∀ text : String, jsTrim text = "" →
      getHWID (ExecResult.output text) = JVal.str "UNKNOWN_HWID") ∧
    (∀ text : String, jsTrim text ≠ "" →
      getHWID (ExecResult.output text) = JVal.str (jsTrim text)) ∧
    (∀ exec : ExecResult, ∃ t : String, t ≠ "" ∧ getHWID exec = JVal.str t ∧
      ∀ (s : Sys) (u p l : JVal) (http : HttpResult),
        (∃ req : Request, (Login u p exec http s).2.requests = s.requests ++ [req] ∧
          req.payload.lookup "hwid" = some (JVal.str t)) ∧
        (∃ req : Request, (Register u p l exec http s).2.requests = s.requests ++ [req] ∧
          req.payload.lookup "hwid" = some (JVal.str t)) ∧
        (∃ req : Request, (License l exec http s).2.requests = s.requests ++ [req] ∧
          req.payload.lookup "hwid" = some (JVal.str t))) := by
  refine ⟨rfl, fun text h => by rw [getHWID_output, if_pos h],
    fun text h => by rw [getHWID_output, if_neg h], fun exec => ?_⟩
  have key : ∃ t : String, t ≠ "" ∧ getHWID exec = JVal.str t := by
    cases exec with
    | throws => exact ⟨"UNKNOWN_HWID", by decide, rfl⟩
    | output text =>
      by_cases h : jsTrim text = ""
      · exact ⟨"UNKNOWN_HWID", by decide, by rw [getHWID_output, if_pos h]⟩
      · exact ⟨jsTrim text, h, by rw [getHWID_output, if_neg h]⟩
  obtain ⟨t, ht, hget⟩ := key
  refine ⟨t, ht, hget, fun s u p l http => ⟨?_, ?_, ?_⟩⟩
  · exact ⟨_, (Login_frame u p exec http s).2, by rw [← hget]; rfl⟩
  · exact ⟨_, (Register_frame u p l exec http s).2, by rw [← hget]; rfl⟩
  · exact ⟨_, (License_frame l exec http s).2, by rw [← hget]; rfl⟩

theorem getHWID_sentinel_or_trimmed_witness :
    jsTrim " \t\r\n" = "" ∧ getHWID (ExecResult.output " \t\r\n") = JVal.str "UNKNOWN_HWID" ∧
    jsTrim " S-1-5-21 \r\n" ≠ "" ∧
    getHWID (ExecResult.output " S-1-5-21 \r\n") = JVal.str "S-1-5-21" :=
  ⟨by decide, getHWID_sentinel_or_trimmed.2.1 " \t\r\n" (by decide), by decide,
   getHWID_sentinel_or_trimmed.2.2.1 " S-1-5-21 \r\n" (by decide)⟩

/-! ## The two branches of each operation -/

theorem Init_accepted (s : Sys) (fs : List (String × JVal)) (params : List (String × String))
    (hconv : URLSearchParams (initPayload s.client) = Except.ok params)
    (hsucc : truthy (lookupField fs "success") = true) :
    Init (HttpResult.data (JVal.obj fs)) s = (Res.ok (),
      { client := { s.client with sessionid := lookupField fs "sessionid" },
        console := s.console ++ [logged [JVal.str "Connecting..."],
          logged [JVal.str "✅ Initialized Successfully!"]],
        requests := s.requests ++ [requestOf s.client (initPayload s.client)],
        posts := s.posts ++ [postOf s.client params] }) := by
  simp [Init, sendRequest, Eff.bind_apply, Eff.pure_apply, Eff.bind, consoleLog, getThis,
    liftExcept, getProp, hsucc, hconv, setSessionid, logged, requestOf, postOf]

theorem Init_rejected (s : Sys) (fs : List (String × JVal)) (params : List (String × String))
    (hconv : URLSearchParams (initPayload s.client) = Except.ok params)
    (hsucc : truthy (lookupField fs "success") = false) :
    Init (HttpResult.data (JVal.obj fs)) s = (Res.exit 1,
      { s with
        console := s.console ++ [logged [JVal.str "Connecting..."],
          logged [JVal.str "❌ Init Failed:",
            jsOr (lookupField fs "message") (JVal.str "Unknown error")]],
        requests := s.requests ++ [requestOf s.client (initPayload s.client)],
        posts := s.posts ++ [postOf s.client params] }) := by
  simp [Init, sendRequest, Eff.bind_apply, Eff.pure_apply, Eff.bind, consoleLog, getThis,
    liftExcept, getProp, hsucc, hconv, processExit, logged, requestOf, postOf]

theorem Init_unconvertible (s : Sys) (e : JErr)
    (hconv : URLSearchParams (initPayload s.client) = Except.error e) (http : HttpResult) :
    Init http s = (Res.exit 1,
      { s with
        console := s.console ++ [logged [JVal.str "Connecting..."],
          httpErrorLine (JVal.str e.message)],
        requests := s.requests ++ [requestOf s.client (initPayload s.client)] }) := by
  simp [Init, sendRequest, Eff.bind_apply, Eff.bind, consoleLog, getThis, hconv,
    sendRequestCatch, consoleError, processExit, logged, requestOf, httpErrorLine]

theorem handleUserResponse_rejected (okLine failLine : String) (s : Sys)
    (fs : List (String × JVal)) (hsucc : truthy (lookupField fs "success") = false) :
    handleUserResponse okLine failLine (JVal.obj fs) s = (Res.ok (),
      { s with console := s.console ++ [logged [JVal.str failLine,
          jsOr (lookupField fs "message") (JVal.str "Unknown error")]] }) := by
  simp [handleUserResponse, Eff.bind_apply, Eff.bind, consoleLog, liftExcept, getProp, hsucc,
    logged]

theorem handleUserResponse_accepted (okLine failLine : String) (s : Sys)
    (fs : List (String × JVal)) (hsucc : truthy (lookupField fs "success") = true) :
    handleUserResponse okLine failLine (JVal.obj fs) s
      = printUserInfo (lookupField fs "info")
          { s with console := s.console ++ [logged [JVal.str okLine]] } := by
  simp [handleUserResponse, Eff.bind_apply, Eff.bind, consoleLog, liftExcept, getProp, hsucc,
    logged]

theorem Login_data (u p : JVal) (exec : ExecResult) (params : List (String × String))
    (s : Sys) (hconv : URLSearchParams (loginPayload s.client u p exec) = Except.ok params)
    (body : JVal) :
    Login u p exec (HttpResult.data body) s
      = handleUserResponse "✅ Logged in!" "❌ Login Failed:" body
          { s with
            requests := s.requests ++ [requestOf s.client (loginPayload s.client u p exec)],
            posts := s.posts ++ [postOf s.client params] } :=
  sendRequest_bind_data _ params hconv body _ s

theorem Register_data (u p l : JVal) (exec : ExecResult) (params : List (String × String))
    (s : Sys) (hconv : URLSearchParams (registerPayload s.client u p l exec) = Except.ok params)
    (body : JVal) :
    Register u p l exec (HttpResult.data body) s
      = handleUserResponse "✅ Registered Successfully!" "❌ Register Failed:" body
          { s with
            requests := s.requests
              ++ [requestOf s.client (registerPayload s.client u p l exec)],
            posts := s.posts ++ [postOf s.client params] } :=
  sendRequest_bind_data _ params hconv body _ s

theorem License_data (l : JVal) (exec : ExecResult) (params : List (String × String))
    (s : Sys) (hconv : URLSearchParams (licensePayload s.client l exec) = Except.ok params)
    (body : JVal) :
    License l exec (HttpResult.data body) s
      = handleUserResponse "✅ License Login Successful!" "❌ License Login Failed:" body
          { s with
            requests := s.requests ++ [requestOf s.client (licensePayload s.client l exec)],
            posts := s.posts ++ [postOf s.client params] } :=
  sendRequest_bind_data _ params hconv body _ s

theorem Login_unconvertible (u p : JVal) (exec : ExecResult) (e : JErr) (s : Sys)
    (hconv : URLSearchParams (loginPayload s.client u p exec) = Except.error e)
    (http : HttpResult) :
    Login u p exec http s = (Res.exit 1,
      { s with
        console := s.console ++ [httpErrorLine (JVal.str e.message)],
        requests := s.requests ++ [requestOf s.client (loginPayload s.client u p exec)] }) :=
  sendRequest_bind_unconvertible _ e hconv http _ s

theorem Register_unconvertible (u p l : JVal) (exec : ExecResult) (e : JErr) (s : Sys)
    (hconv : URLSearchParams (registerPayload s.client u p l exec) = Except.error e)
    (http : HttpResult) :
    Register u p l exec http s = (Res.exit 1,
      { s with
        console := s.console ++ [httpErrorLine (JVal.str e.message)],
        requests := s.requests
          ++ [requestOf s.client (registerPayload s.client u p l exec)] }) :=
  sendRequest_bind_unconvertible _ e hconv http _ s

theorem License_unconvertible (l : JVal) (exec : ExecResult) (e : JErr) (s : Sys)
    (hconv : URLSearchParams (licensePayload s.client l exec) = Except.error e)
    (http : HttpResult) :
    License l exec http s = (Res.exit 1,
      { s with
        console := s.console ++ [httpErrorLine (JVal.str e.message)],
        requests := s.requests ++ [requestOf s.client (licensePayload s.client l exec)] }) :=
  sendRequest_bind_unconvertible _ e hconv http _ s

theorem truthy_of_bool_false {v : JVal} (h : v = JVal.bool false) : truthy v = false := by
  rw [h]; rfl

theorem truthy_of_bool_true {v : JVal} (h : v = JVal.bool true) : truthy v = true := by
  rw [h]; rfl

/-! ## C1: a successful `Init` stores the session id verbatim -/

/-- A configuration of four strings always converts: the `Init` request of
such a client reaches the transport. -/
theorem initPayload_of_strings (c : AuthSecure) (name ownerid secret version : String)
    (h1 : c.name = JVal.str name) (h2 : c.ownerid = JVal.str ownerid)
    (h3 : c.secret = JVal.str secret) (h4 : c.version = JVal.str version) :
    URLSearchParams (initPayload c) = Except.ok
      [("type", "init"), ("name", name), ("ownerid", ownerid), ("secret", secret),
       ("ver", version)] := by
  simp [initPayload, URLSearchParams, jsToString, h1, h2, h3, h4]

/-- C1. For every state whose configuration values convert to the text of the
request (every string does), so that the request reaches the transport, and
every response object whose `success` is `true` and whose `sessionid` is the
string `sid`: `Init` finishes normally (no process exit, no fault), the client
afterwards holds `sessionid = sid` unchanged, and `name`, `ownerid`, `secret`,
`version` keep their values. -/
theorem Init_success_stores_sessionid (s : Sys) (fs : List (String × JVal)) (sid : String)
    (params : List (String × String))
    (hconv : URLSearchParams (initPayload s.client) = Except.ok params)
    (hsucc : lookupField fs "success" = JVal.bool true)
    (hsid : lookupField fs "sessionid" = JVal.str sid) :
    (Init (HttpResult.data (JVal.obj fs)) s).1 = Res.ok () ∧
    (Init (HttpResult.data (JVal.obj fs)) s).2.client.sessionid = JVal.str sid ∧
    (Init (HttpResult.data (JVal.obj fs)) s).2.client.name = s.client.name ∧
    (Init (HttpResult.data (JVal.obj fs)) s).2.client.ownerid = s.client.ownerid ∧
    (Init (HttpResult.data (JVal.obj fs)) s).2.client.secret = s.client.secret ∧
    (Init (HttpResult.data (JVal.obj fs)) s).2.client.version = s.client.version := by
  rw [Init_accepted s fs params hconv (truthy_of_bool_true hsucc), hsid]
  exact ⟨rfl, rfl, rfl, rfl, rfl, rfl⟩

theorem Init_success_stores_sessionid_witness :
    URLSearchParams (initPayload (freshSys demoClient).client) = Except.ok demoInitParams ∧
    (Init (HttpResult.data (JVal.obj [("success", JVal.bool true),
        ("sessionid", JVal.str " a+b%20 ")])) (freshSys demoClient)).1 = Res.ok () ∧
    (Init (HttpResult.data (JVal.obj [("success", JVal.bool true),
        ("sessionid", JVal.str " a+b%20 ")])) (freshSys demoClient)).2.client.sessionid
      = JVal.str " a+b%20 " :=
  have h := Init_success_stores_sessionid (freshSys demoClient)
    [("success", JVal.bool true), ("sessionid", JVal.str " a+b%20 ")] " a+b%20 "
    demoInitParams rfl rfl rfl
  ⟨rfl, h.1, h.2.1⟩

/-! ## C5: a rejection is reported with its message or with "Unknown error" -/

/-- C5. For a response object with `success: false` that an operation
receives (its request was converted and posted): when the response has no
`message` field each of `Init`, `Login`, `Register` and `License` raises no
fault and logs its failure line with the reason `"Unknown error"`; when
`message` is a non-empty string `m` the logged reason is `m`.  `Login`,
`Register` and `License` then return normally; `Init` ends the process with
code 1. -/
theorem rejected_reason_reported (s : Sys) (fs : List (String × JVal)) (reason : JVal)
    (hsucc : lookupField fs "success" = JVal.bool false)
    (hmsg : (fs.lookup "message" = none ∧ reason = JVal.str "Unknown error") ∨
      (∃ m : String, m ≠ "" ∧ fs.lookup "message" = some (JVal.str m) ∧ reason = JVal.str m)) :
    (∀ params : List (String × String),
      URLSearchParams (initPayload s.client) = Except.ok params →
      Init (HttpResult.data (JVal.obj fs)) s = (Res.exit 1,
        { s with
          console := s.console ++ [logged [JVal.str "Connecting..."],
            logged [JVal.str "❌ Init Failed:", reason]],
          requests := s.requests ++ [requestOf s.client (initPayload s.client)],
          posts := s.posts ++ [postOf s.client params] })) ∧
    (∀ (u p : JVal) (exec : ExecResult) (params : List (String × String)),
      URLSearchParams (loginPayload s.client u p exec) = Except.ok params →
      Login u p exec (HttpResult.data (JVal.obj fs)) s = (Res.ok (),
        { s with
          console := s.console ++ [logged [JVal.str "❌ Login Failed:", reason]],
          requests := s.requests ++ [requestOf s.client (loginPayload s.client u p exec)],
          posts := s.posts ++ [postOf s.client params] })) ∧
    (∀ (u p l : JVal) (exec : ExecResult) (params : List (String × String)),
      URLSearchParams (registerPayload s.client u p l exec) = Except.ok params →
      Register u p l exec (HttpResult.data (JVal.obj fs)) s = (Res.ok (),
        { s with
          console := s.console ++ [logged [JVal.str "❌ Register Failed:", reason]],
          requests := s.requests
            ++ [requestOf s.client (registerPayload s.client u p l exec)],
          posts := s.posts ++ [postOf s.client params] })) ∧
    (∀ (l : JVal) (exec : ExecResult) (params : List (String × String)),
      URLSearchParams (licensePayload s.client l exec) = Except.ok params →
      License l exec (HttpResult.data (JVal.obj fs)) s = (Res.ok (),
        { s with
          console := s.console ++ [logged [JVal.str "❌ License Login Failed:", reason]],
          requests := s.requests ++ [requestOf s.client (licensePayload s.client l exec)],
          posts := s.posts ++ [postOf s.client params] })) := by
  have hfalsy := truthy_of_bool_false hsucc
  have hreason : jsOr (lookupField fs "message") (JVal.str "Unknown error") = reason := by
    rcases hmsg with ⟨hnone, hr⟩ | ⟨m, hm, hsome, hr⟩
    · simp [lookupField, hnone, jsOr, truthy, hr]
    · simp [lookupField, hsome, jsOr, truthy, hr, hm]
  refine ⟨fun params hc => ?_, fun u p exec params hc => ?_, fun u p l exec params hc => ?_,
    fun l exec params hc => ?_⟩
  · rw [Init_rejected s fs params hc hfalsy, hreason]
  · rw [Login_data u p exec params s hc, handleUserResponse_rejected _ _ _ fs hfalsy, hreason]
  · rw [Register_data u p l exec params s hc, handleUserResponse_rejected _ _ _ fs hfalsy,
      hreason]
  · rw [License_data l exec params s hc, handleUserResponse_rejected _ _ _ fs hfalsy, hreason]

theorem rejected_reason_reported_witness :
    (Login (JVal.str "bob") (JVal.str "pw1") ExecResult.throws
        (HttpResult.data (JVal.obj [("success", JVal.bool false)])) (freshSys demoClient)).1
      = Res.ok () ∧
    (Login (JVal.str "bob") (JVal.str "pw1") ExecResult.throws
        (HttpResult.data (JVal.obj [("success", JVal.bool false)]))
        (freshSys demoClient)).2.console
      = [logged [JVal.str "❌ Login Failed:", JVal.str "Unknown error"]] :=
  have h := (rejected_reason_reported (freshSys demoClient) [("success", JVal.bool false)]
    (JVal.str "Unknown error") rfl (Or.inl ⟨rfl, rfl⟩)).2.1
    (JVal.str "bob") (JVal.str "pw1") ExecResult.throws demoLoginParams rfl
  ⟨congrArg Prod.fst h, congrArg (fun r => r.2.console) h⟩

/-! ## C6: a rejected `Init` -/

/-- C6, as stated, fails: for the response `success: false, message: ""` sent
to a fresh client, the reason `Init` logs is `"Unknown error"`, which is not
the response's message (the empty string). -/
theorem Init_empty_message_not_reported :
    lookupField demoEmptyMessage "success" = JVal.bool false ∧
    (Init (HttpResult.data (JVal.obj demoEmptyMessage)) (freshSys demoClient)).2.console
      = [logged [JVal.str "Connecting..."],
         logged [JVal.str "❌ Init Failed:", JVal.str "Unknown error"]] ∧
    JVal.str "Unknown error" ≠ lookupField demoEmptyMessage "message" :=
  ⟨rfl, rfl, fun h => by
    have h2 : "Unknown error" = "" := JVal.str.inj h
    exact absurd h2 (by decide)⟩

/-- C6, amended. For every client without a session (`sessionid` is `null`)
and every response object with `success: false` that `Init` receives (its
request was converted and posted), `Init` logs its failure line with the
response's message when that message is truthy and with `"Unknown error"`
when the message is absent or falsy, leaves the client object as it was, so
`sessionid` is still `null`, and ends the process with exit code 1. -/
theorem Init_rejected_reports_and_exits (s : Sys) (fs : List (String × JVal)) (reason : JVal)
    (params : List (String × String))
    (hnull : s.client.sessionid = JVal.null)
    (hconv : URLSearchParams (initPayload s.client) = Except.ok params)
    (hsucc : lookupField fs "success" = JVal.bool false)
    (hreason : (truthy (lookupField fs "message") = true ∧ reason = lookupField fs "message") ∨
      (truthy (lookupField fs "message") = false ∧ reason = JVal.str "Unknown error")) :
    (Init (HttpResult.data (JVal.obj fs)) s).1 = Res.exit 1 ∧
    (Init (HttpResult.data (JVal.obj fs)) s).2.console
      = s.console ++ [logged [JVal.str "Connecting..."],
          logged [JVal.str "❌ Init Failed:", reason]] ∧
    (Init (HttpResult.data (JVal.obj fs)) s).2.client = s.client ∧
    (Init (HttpResult.data (JVal.obj fs)) s).2.client.sessionid = JVal.null := by
  have hor : jsOr (lookupField fs "message") (JVal.str "Unknown error") = reason := by
    rcases hreason with ⟨ht, hr⟩ | ⟨hf, hr⟩
    · simp [jsOr, ht, hr]
    · simp [jsOr, hf, hr]
  rw [Init_rejected s fs params hconv (truthy_of_bool_false hsucc), hor]
  exact ⟨rfl, rfl, rfl, hnull⟩

theorem Init_rejected_reports_and_exits_witness :
    (Init (HttpResult.data (JVal.obj demoPaused)) (freshSys demoClient)).1 = Res.exit 1 ∧
    (Init (HttpResult.data (JVal.obj demoPaused)) (freshSys demoClient)).2.console
      = (freshSys demoClient).console ++ [logged [JVal.str "Connecting..."],
          logged [JVal.str "❌ Init Failed:", JVal.str "App paused"]] ∧
    (Init (HttpResult.data (JVal.obj demoPaused)) (freshSys demoClient)).2.client
      = (freshSys demoClient).client ∧
    (Init (HttpResult.data (JVal.obj demoPaused)) (freshSys demoClient)).2.client.sessionid
      = JVal.null :=
  Init_rejected_reports_and_exits (freshSys demoClient) demoPaused (JVal.str "App paused")
    demoInitParams rfl rfl rfl (Or.inl ⟨rfl, rfl⟩)

/-! ## C7: calls made before `Init` -/

/-- A converted payload holds, under each key, the text of the value the
payload holds under that key. -/
theorem URLSearchParams_lookup (key : String) (v : JVal) :
    ∀ (payload : List (String × JVal)) (params : List (String × String)),
      URLSearchParams payload = Except.ok params → payload.lookup key = some v →
      ∃ text : String, jsToString v = Except.ok text ∧ params.lookup key = some text := by
  intro payload
  induction payload with
  | nil => intro params _ hk; simp at hk
  | cons kv rest ih =>
    intro params h hk
    obtain ⟨k1, v1⟩ := kv
    unfold URLSearchParams at h
    cases hv : jsToString v1 with
    | error e => rw [hv] at h; simp at h
    | ok t1 =>
      rw [hv] at h
      cases hr : URLSearchParams rest with
      | error e => rw [hr] at h; simp at h
      | ok ps =>
        rw [hr] at h
        simp only [Except.ok.injEq] at h
        subst h
        by_cases hkey : key = k1
        · subst hkey
          simp only [List.lookup_cons, beq_self_eq_true, Option.some.injEq] at hk
          subst hk
          exact ⟨t1, hv, by simp [List.lookup_cons]⟩
        · have hb : (key == k1) = false := by simpa using hkey
          simp only [List.lookup_cons, hb] at hk
          obtain ⟨text, h1, h2⟩ := ih ps hr hk
          exact ⟨text, h1, by simp only [List.lookup_cons, hb]; exact h2⟩

/-- When the payload converts, exactly one post is made, whatever the
transport answers. -/
theorem sendRequest_then_posts (payload : List (String × JVal))
    (params : List (String × String)) (hconv : URLSearchParams payload = Except.ok params)
    (http : HttpResult) (k : JVal → Eff Unit) (hk : ∀ resp, Frame (k resp)) (s : Sys) :
    ((sendRequest payload http >>= k) s).2.posts = s.posts ++ [postOf s.client params] := by
  cases http with
  | data body =>
    rw [sendRequest_bind_data payload params hconv body k s]
    exact (hk body _).2.2
  | error message =>
    rw [sendRequest_bind_error payload params hconv message k s]

theorem null_session_posted (payload : List (String × JVal)) (params : List (String × String))
    (hconv : URLSearchParams payload = Except.ok params)
    (hsid : payload.lookup "sessionid" = some JVal.null) :
    params.lookup "sessionid" = some "null" := by
  obtain ⟨text, h1, h2⟩ := URLSearchParams_lookup "sessionid" JVal.null payload params hconv hsid
  have : text = "null" := by
    have h3 : jsToString JVal.null = Except.ok "null" := rfl
    rw [h3] at h1
    exact (Except.ok.inj h1).symm
  rw [h2, this]

/-- C7, as stated, fails: on a client that was only constructed, `Login`
passes a payload with `sessionid` `null` to `sendRequest`, which posts it with
`sessionid` as the text `"null"`, and on a rejection `Login` returns normally;
no precondition error is raised. -/
theorem Login_before_Init_is_sent :
    AuthSecure.constructor demoConfig = Except.ok demoClient ∧
    (Login (JVal.str "alice") (JVal.str "p1") ExecResult.throws demoRejected
        (freshSys demoClient)).1 = Res.ok () ∧
    (Login (JVal.str "alice") (JVal.str "p1") ExecResult.throws demoRejected
        (freshSys demoClient)).2.requests
      = [Request.mk "https://authsecure.shop/post/api.php"
          [("type", JVal.str "login"), ("sessionid", JVal.null),
           ("username", JVal.str "alice"), ("pass", JVal.str "p1"),
           ("hwid", JVal.str "UNKNOWN_HWID"), ("name", JVal.str "MyApp"),
           ("ownerid", JVal.str "owner01")]] ∧
    (Login (JVal.str "alice") (JVal.str "p1") ExecResult.throws demoRejected
        (freshSys demoClient)).2.posts
      = [Post.mk "https://authsecure.shop/post/api.php"
          [("type", "login"), ("sessionid", "null"), ("username", "alice"), ("pass", "p1"),
           ("hwid", "UNKNOWN_HWID"), ("name", "MyApp"), ("ownerid", "owner01")]] :=
  ⟨rfl, rfl, rfl, rfl⟩

/-- C7, amended. For every client without a session (`sessionid` is `null`)
and all arguments, `Login`, `Register` and `License` check no precondition.
Each passes its payload, with `sessionid` `null`, to `sendRequest`, whatever
happens next.  When every payload value converts to text, exactly one post is
made, carrying `sessionid` as the text `"null"`, whatever the transport
answers, and on a response object with falsy `success` the call logs its
failure line with the reason `resp.message || "Unknown error"` and returns
normally.  When a payload value cannot be converted, nothing is posted: the
call logs the fault as an HTTP error and exits the process with code 1. -/
theorem calls_before_Init_are_sent (s : Sys) (hnull : s.client.sessionid = JVal.null)
    (u p l : JVal) (exec : ExecResult) :
    (∀ http : HttpResult,
      (∃ req : Request, (Login u p exec http s).2.requests = s.requests ++ [req] ∧
        req.payload.lookup "sessionid" = some JVal.null) ∧
      (∃ req : Request, (Register u p l exec http s).2.requests = s.requests ++ [req] ∧
        req.payload.lookup "sessionid" = some JVal.null) ∧
      (∃ req : Request, (License l exec http s).2.requests = s.requests ++ [req] ∧
        req.payload.lookup "sessionid" = some JVal.null)) ∧
    (∀ params : List (String × String),
      URLSearchParams (loginPayload s.client u p exec) = Except.ok params →
      params.lookup "sessionid" = some "null" ∧
      (∀ http : HttpResult,
        (Login u p exec http s).2.posts = s.posts ++ [postOf s.client params]) ∧
      (∀ fs : List (String × JVal), truthy (lookupField fs "success") = false →
        Login u p exec (HttpResult.data (JVal.obj fs)) s = (Res.ok (),
          { s with
            console := s.console ++ [logged [JVal.str "❌ Login Failed:",
              jsOr (lookupField fs "message") (JVal.str "Unknown error")]],
            requests := s.requests ++ [requestOf s.client (loginPayload s.client u p exec)],
            posts := s.posts ++ [postOf s.client params] }))) ∧
    (∀ params : List (String × String),
      URLSearchParams (registerPayload s.client u p l exec) = Except.ok params →
      params.lookup "sessionid" = some "null" ∧
      (∀ http : HttpResult,
        (Register u p l exec http s).2.posts = s.posts ++ [postOf s.client params]) ∧
      (∀ fs : List (String × JVal), truthy (lookupField fs "success") = false →
        Register u p l exec (HttpResult.data (JVal.obj fs)) s = (Res.ok (),
          { s with
            console := s.console ++ [logged [JVal.str "❌ Register Failed:",
              jsOr (lookupField fs "message") (JVal.str "Unknown error")]],
            requests := s.requests
              ++ [requestOf s.client (registerPayload s.client u p l exec)],
            posts := s.posts ++ [postOf s.client params] }))) ∧
    (∀ params : List (String × String),
      URLSearchParams (licensePayload s.client l exec) = Except.ok params →
      params.lookup "sessionid" = some "null" ∧
      (∀ http : HttpResult,
        (License l exec http s).2.posts = s.posts ++ [postOf s.client params]) ∧
      (∀ fs : List (String × JVal), truthy (lookupField fs "success") = false →
        License l exec (HttpResult.data (JVal.obj fs)) s = (Res.ok (),
          { s with
            console := s.console ++ [logged [JVal.str "❌ License Login Failed:",
              jsOr (lookupField fs "message") (JVal.str "Unknown error")]],
            requests := s.requests ++ [requestOf s.client (licensePayload s.client l exec)],
            posts := s.posts ++ [postOf s.client params] }))) ∧
    (∀ (e : JErr) (http : HttpResult),
      (URLSearchParams (loginPayload s.client u p exec) = Except.error e →
        Login u p exec http s = (Res.exit 1,
          { s with
            console := s.console ++ [httpErrorLine (JVal.str e.message)],
            requests := s.requests
              ++ [requestOf s.client (loginPayload s.client u p exec)] })) ∧
      (URLSearchParams (registerPayload s.client u p l exec) = Except.error e →
        Register u p l exec http s = (Res.exit 1,
          { s with
            console := s.console ++ [httpErrorLine (JVal.str e.message)],
            requests := s.requests
              ++ [requestOf s.client (registerPayload s.client u p l exec)] })) ∧
      (URLSearchParams (licensePayload s.client l exec) = Except.error e →
        License l exec http s = (Res.exit 1,
          { s with
            console := s.console ++ [httpErrorLine (JVal.str e.message)],
            requests := s.requests
              ++ [requestOf s.client (licensePayload s.client l exec)] }))) := by
  have hL : (loginPayload s.client u p exec).lookup "sessionid" = some JVal.null := by
    rw [← hnull]; rfl
  have hR : (registerPayload s.client u p l exec).lookup "sessionid" = some JVal.null := by
    rw [← hnull]; rfl
  have hK : (licensePayload s.client l exec).lookup "sessionid" = some JVal.null := by
    rw [← hnull]; rfl
  refine ⟨fun http => ⟨?_, ?_, ?_⟩, fun params hc => ⟨?_, fun http => ?_, fun fs hf => ?_⟩,
    fun params hc => ⟨?_, fun http => ?_, fun fs hf => ?_⟩,
    fun params hc => ⟨?_, fun http => ?_, fun fs hf => ?_⟩,
    fun e http => ⟨fun hc => ?_, fun hc => ?_, fun hc => ?_⟩⟩
  · exact ⟨_, (Login_frame u p exec http s).2, hL⟩
  · exact ⟨_, (Register_frame u p l exec http s).2, hR⟩
  · exact ⟨_, (License_frame l exec http s).2, hK⟩
  · exact null_session_posted _ params hc hL
  · exact sendRequest_then_posts _ params hc http _
      (fun resp => Frame.handleUserResponse _ _ resp) s
  · rw [Login_data u p exec params s hc, handleUserResponse_rejected _ _ _ fs hf]
  · exact null_session_posted _ params hc hR
  · exact sendRequest_then_posts _ params hc http _
      (fun resp => Frame.handleUserResponse _ _ resp) s
  · rw [Register_data u p l exec params s hc, handleUserResponse_rejected _ _ _ fs hf]
  · exact null_session_posted _ params hc hK
  · exact sendRequest_then_posts _ params hc http _
      (fun resp => Frame.handleUserResponse _ _ resp) s
  · rw [License_data l exec params s hc, handleUserResponse_rejected _ _ _ fs hf]
  · exact Login_unconvertible u p exec e s hc http
  · exact Register_unconvertible u p l exec e s hc http
  · exact License_unconvertible l exec e s hc http

theorem calls_before_Init_are_sent_witness :
    (freshSys demoClient).client.sessionid = JVal.null ∧
    URLSearchParams (loginPayload (freshSys demoClient).client
        (JVal.obj [("toString", JVal.null)]) (JVal.str "p1") ExecResult.throws)
      = Except.error (JErr.typeError "Cannot convert object to primitive value") ∧
    Login (JVal.obj [("toString", JVal.null)]) (JVal.str "p1") ExecResult.throws demoRejected
        (freshSys demoClient)
      = (Res.exit 1,
        { (freshSys demoClient) with
          console := (freshSys demoClient).console ++ [httpErrorLine (JVal.str
            (JErr.typeError "Cannot convert object to primitive value").message)],
          requests := (freshSys demoClient).requests
            ++ [requestOf (freshSys demoClient).client
              (loginPayload (freshSys demoClient).client (JVal.obj [("toString", JVal.null)])
                (JVal.str "p1") ExecResult.throws)] }) :=
  ⟨rfl, rfl, ((calls_before_Init_are_sent (freshSys demoClient) rfl
    (JVal.obj [("toString", JVal.null)]) (JVal.str "p1") JVal.undefined
    ExecResult.throws).2.2.2.2
    (JErr.typeError "Cannot convert object to primitive value") demoRejected).1 rfl⟩

/-! ## C9: who writes the session field -/

theorem Init_sessionid (http : HttpResult) (s : Sys) :
    (Init http s).2.client.sessionid = s.client.sessionid ∨
    ∃ fs : List (String × JVal), http = HttpResult.data (JVal.obj fs) ∧
      truthy (lookupField fs "success") = true ∧
      (Init http s).2.client.sessionid = lookupField fs "sessionid" := by
  cases hconv : URLSearchParams (initPayload s.client) with
  | error e =>
    left
    rw [Init_unconvertible s e hconv http]
  | ok params =>
    cases http with
    | error message =>
      left
      simp [Init, sendRequest, Eff.bind_apply, Eff.bind, consoleLog, getThis, hconv,
        sendRequestCatch, consoleError, processExit]
    | data body =>
      cases body with
      | obj fs =>
        by_cases h : truthy (lookupField fs "success") = true
        · right
          exact ⟨fs, rfl, h, by rw [Init_accepted s fs params hconv h]⟩
        · left
          rw [Init_rejected s fs params hconv (by simpa using h)]
      | undefined =>
        left
        simp [Init, sendRequest, Eff.bind_apply, Eff.pure_apply, Eff.bind, consoleLog, getThis,
          liftExcept, getProp, hconv]
      | null =>
        left
        simp [Init, sendRequest, Eff.bind_apply, Eff.pure_apply, Eff.bind, consoleLog, getThis,
          liftExcept, getProp, hconv]
      | bool b =>
        left
        simp [Init, sendRequest, Eff.bind_apply, Eff.pure_apply, Eff.bind, consoleLog, getThis,
          liftExcept, getProp, truthy, processExit, hconv]
      | num n =>
        left
        simp [Init, sendRequest, Eff.bind_apply, Eff.pure_apply, Eff.bind, consoleLog, getThis,
          liftExcept, getProp, truthy, processExit, hconv]
      | str t =>
        left
        simp [Init, sendRequest, Eff.bind_apply, Eff.pure_apply, Eff.bind, consoleLog, getThis,
          liftExcept, getProp, truthy, processExit, hconv]
      | arr xs =>
        left
        simp [Init, sendRequest, Eff.bind_apply, Eff.pure_apply, Eff.bind, consoleLog, getThis,
          liftExcept, getProp, truthy, processExit, hconv]

theorem Call.run_sessionid (c : Call) (s : Sys) :
    (c.run s).2.client.sessionid = s.client.sessionid ∨
    ∃ fs : List (String × JVal), c = Call.init (HttpResult.data (JVal.obj fs)) ∧
      truthy (lookupField fs "success") = true ∧
      (c.run s).2.client.sessionid = lookupField fs "sessionid" := by
  cases c with
  | init http =>
    rcases Init_sessionid http s with h | ⟨fs, h1, h2, h3⟩
    · exact Or.inl h
    · exact Or.inr ⟨fs, by rw [h1], h2, h3⟩
  | login u p exec http => exact Or.inl (congrArg _ (Login_frame u p exec http s).1)
  | register u p l exec http => exact Or.inl (congrArg _ (Register_frame u p l exec http s).1)
  | license l exec http => exact Or.inl (congrArg _ (License_frame l exec http s).1)

theorem runCalls_sessionid (cs : List Call) :
    ∀ s : Sys, (runCalls s cs).1.client.sessionid = s.client.sessionid ∨
      ∃ fs : List (String × JVal), Call.init (HttpResult.data (JVal.obj fs)) ∈ cs ∧
        truthy (lookupField fs "success") = true ∧
        (runCalls s cs).1.client.sessionid = lookupField fs "sessionid" := by
  induction cs with
  | nil => intro s; exact Or.inl rfl
  | cons c rest ih =>
    intro s
    have hstep := Call.run_sessionid c s
    rcases hrun : c.run s with ⟨r, s1⟩
    rw [hrun] at hstep
    simp only at hstep
    have lift : ((s1.client.sessionid = s.client.sessionid ∨
        ∃ fs : List (String × JVal), c = Call.init (HttpResult.data (JVal.obj fs)) ∧
          truthy (lookupField fs "success") = true ∧
          s1.client.sessionid = lookupField fs "sessionid")) →
        ∀ final : Sys, (final.client.sessionid = s1.client.sessionid ∨
          ∃ fs : List (String × JVal), Call.init (HttpResult.data (JVal.obj fs)) ∈ rest ∧
            truthy (lookupField fs "success") = true ∧
            final.client.sessionid = lookupField fs "sessionid") →
        (final.client.sessionid = s.client.sessionid ∨
          ∃ fs : List (String × JVal),
            Call.init (HttpResult.data (JVal.obj fs)) ∈ c :: rest ∧
            truthy (lookupField fs "success") = true ∧
            final.client.sessionid = lookupField fs "sessionid") := by
      intro h1 final h2
      rcases h2 with h2 | ⟨fs, hin, ht, hv⟩
      · rcases h1 with h1 | ⟨fs, hc, ht, hv⟩
        · exact Or.inl (h2.trans h1)
        · exact Or.inr ⟨fs, by rw [hc]; exact List.mem_cons_self _ _, ht, h2.trans hv⟩
      · exact Or.inr ⟨fs, List.mem_cons_of_mem _ hin, ht, hv⟩
    cases r with
    | ok a =>
      have e : runCalls s (c :: rest) = runCalls s1 rest := by simp [runCalls, hrun]
      rw [e]; exact lift hstep _ (ih s1)
    | throw err =>
      have e : runCalls s (c :: rest) = runCalls s1 rest := by simp [runCalls, hrun]
      rw [e]; exact lift hstep _ (ih s1)
    | exit code =>
      have e : runCalls s (c :: rest) = (s1, some code) := by simp [runCalls, hrun]
      rw [e]; exact lift hstep s1 (Or.inl rfl)

/-- C9, as stated, fails: after an `Init` that stored `"S1"`, a further `Init`
with a different successful response replaces the session id by `"S2"`. -/
theorem second_Init_overwrites_session :
    (runCalls (freshSys demoClient) [Call.init demoInitOk]).1.client.sessionid
      = JVal.str "S1" ∧
    (runCalls (freshSys demoClient) [Call.init demoInitOk,
      Call.init demoInitOther]).1.client.sessionid = JVal.str "S2" ∧
    JVal.str "S2" ≠ JVal.str "S1" :=
  ⟨rfl, rfl, fun h => absurd (JVal.str.inj h) (by decide)⟩

/-- C9, amended. Over every finite sequence of operations on one client the
session field is written only by `Init`: the value it holds at the end is the
one it held at the start or the `sessionid` of a response object with truthy
`success` that an `Init` of the sequence received.  It is not write-once:
every `Init` that receives such a response (its request was converted and
posted) stores that response's `sessionid`, whatever the field held before. -/
theorem session_written_only_by_Init :
    (∀ (s : Sys) (cs : List Call),
      (runCalls s cs).1.client.sessionid = s.client.sessionid ∨
      ∃ fs : List (String × JVal), Call.init (HttpResult.data (JVal.obj fs)) ∈ cs ∧
        truthy (lookupField fs "success") = true ∧
        (runCalls s cs).1.client.sessionid = lookupField fs "sessionid") ∧
    (∀ (s : Sys) (fs : List (String × JVal)) (params : List (String × String)),
      URLSearchParams (initPayload s.client) = Except.ok params →
      truthy (lookupField fs "success") = true →
      (Init (HttpResult.data (JVal.obj fs)) s).2.client.sessionid = lookupField fs "sessionid") :=
  ⟨fun s cs => runCalls_sessionid cs s,
   fun s fs params hc h => by rw [Init_accepted s fs params hc h]⟩

theorem session_written_only_by_Init_witness :
    URLSearchParams (initPayload (Init demoInitOk (freshSys demoClient)).2.client)
      = Except.ok demoInitParams ∧
    truthy (lookupField [("success", JVal.bool true), ("sessionid", JVal.str "S2")] "success")
      = true ∧
    (Init demoInitOther (Init demoInitOk (freshSys demoClient)).2).2.client.sessionid
      = JVal.str "S2" :=
  ⟨rfl, rfl, session_written_only_by_Init.2 (Init demoInitOk (freshSys demoClient)).2
    [("success", JVal.bool true), ("sessionid", JVal.str "S2")] demoInitParams rfl rfl⟩

/-! ## C10: the branch is taken on JavaScript truthiness -/

/-- C10. The branch on `resp.success` is JavaScript truthiness: the truthy
values are `true`, the numbers other than `0` and `NaN`, the non-empty strings
(so also `"false"`), the arrays and the objects; the falsy ones are `false`,
the number `0` (and `NaN`, which no parsed body holds), `""`, `null` and
`undefined`, which is also what an absent field reads as.  On a response
object with truthy `success` that the operation receives (its request was
converted and posted), `Init` stores `resp.sessionid` (`undefined` when the
field is missing), logs its success line and returns; `Login`, `Register` and
`License` log their success line and go on to `printUserInfo(resp.info)`.
With falsy `success`, `Init` logs its failure line and exits with code 1 and
the other three log their failure line and return. -/
theorem success_branch_is_truthiness :
    (∀ v : JVal, truthy v = true ↔
      (v = JVal.bool true ∨ (∃ r : String, r ≠ "0" ∧ r ≠ "NaN" ∧ v = JVal.num r) ∨
        (∃ t : String, t ≠ "" ∧ v = JVal.str t) ∨ (∃ xs, v = JVal.arr xs) ∨
        (∃ fs, v = JVal.obj fs))) ∧
    (∀ v : JVal, truthy v = false ↔
      (v = JVal.bool false ∨ v = JVal.num "0" ∨ v = JVal.num "NaN" ∨ v = JVal.str "" ∨
        v = JVal.null ∨ v = JVal.undefined)) ∧
    (∀ fs : List (String × JVal), fs.lookup "success" = none →
      lookupField fs "success" = JVal.undefined) ∧
    (∀ (s : Sys) (fs : List (String × JVal)), truthy (lookupField fs "success") = true →
      (∀ params : List (String × String),
        URLSearchParams (initPayload s.client) = Except.ok params →
        Init (HttpResult.data (JVal.obj fs)) s = (Res.ok (),
          { client := { s.client with sessionid := lookupField fs "sessionid" },
            console := s.console ++ [logged [JVal.str "Connecting..."],
              logged [JVal.str "✅ Initialized Successfully!"]],
            requests := s.requests ++ [requestOf s.client (initPayload s.client)],
            posts := s.posts ++ [postOf s.client params] })) ∧
      (∀ (u p : JVal) (exec : ExecResult) (params : List (String × String)),
        URLSearchParams (loginPayload s.client u p exec) = Except.ok params →
        Login u p exec (HttpResult.data (JVal.obj fs)) s
          = printUserInfo (lookupField fs "info")
              { s with
                console := s.console ++ [logged [JVal.str "✅ Logged in!"]],
                requests := s.requests
                  ++ [requestOf s.client (loginPayload s.client u p exec)],
                posts := s.posts ++ [postOf s.client params] }) ∧
      (∀ (u p l : JVal) (exec : ExecResult) (params : List (String × String)),
        URLSearchParams (registerPayload s.client u p l exec) = Except.ok params →
        Register u p l exec (HttpResult.data (JVal.obj fs)) s
          = printUserInfo (lookupField fs "info")
              { s with
                console := s.console ++ [logged [JVal.str "✅ Registered Successfully!"]],
                requests := s.requests
                  ++ [requestOf s.client (registerPayload s.client u p l exec)],
                posts := s.posts ++ [postOf s.client params] }) ∧
      (∀ (l : JVal) (exec : ExecResult) (params : List (String × String)),
        URLSearchParams (licensePayload s.client l exec) = Except.ok params →
        License l exec (HttpResult.data (JVal.obj fs)) s
          = printUserInfo (lookupField fs "info")
              { s with
                console := s.console ++ [logged [JVal.str "✅ License Login Successful!"]],
                requests := s.requests
                  ++ [requestOf s.client (licensePayload s.client l exec)],
                posts := s.posts ++ [postOf s.client params] })) ∧
    (∀ (s : Sys) (fs : List (String × JVal)), truthy (lookupField fs "success") = false →
      (∀ params : List (String × String),
        URLSearchParams (initPayload s.client) = Except.ok params →
        Init (HttpResult.data (JVal.obj fs)) s = (Res.exit 1,
          { s with
            console := s.console ++ [logged [JVal.str "Connecting..."],
              logged [JVal.str "❌ Init Failed:",
                jsOr (lookupField fs "message") (JVal.str "Unknown error")]],
            requests := s.requests ++ [requestOf s.client (initPayload s.client)],
            posts := s.posts ++ [postOf s.client params] })) ∧
      (∀ (u p : JVal) (exec : ExecResult) (params : List (String × String)),
        URLSearchParams (loginPayload s.client u p exec) = Except.ok params →
        Login u p exec (HttpResult.data (JVal.obj fs)) s = (Res.ok (),
          { s with
            console := s.console ++ [logged [JVal.str "❌ Login Failed:",
              jsOr (lookupField fs "message") (JVal.str "Unknown error")]],
            requests := s.requests
              ++ [requestOf s.client (loginPayload s.client u p exec)],
            posts := s.posts ++ [postOf s.client params] })) ∧
      (∀ (u p l : JVal) (exec : ExecResult) (params : List (String × String)),
        URLSearchParams (registerPayload s.client u p l exec) = Except.ok params →
        Register u p l exec (HttpResult.data (JVal.obj fs)) s = (Res.ok (),
          { s with
            console := s.console ++ [logged [JVal.str "❌ Register Failed:",
              jsOr (lookupField fs "message") (JVal.str "Unknown error")]],
            requests := s.requests
              ++ [requestOf s.client (registerPayload s.client u p l exec)],
            posts := s.posts ++ [postOf s.client params] })) ∧
      (∀ (l : JVal) (exec : ExecResult) (params : List (String × String)),
        URLSearchParams (licensePayload s.client l exec) = Except.ok params →
        License l exec (HttpResult.data (JVal.obj fs)) s = (Res.ok (),
          { s with
            console := s.console ++ [logged [JVal.str "❌ License Login Failed:",
              jsOr (lookupField fs "message") (JVal.str "Unknown error")]],
            requests := s.requests
              ++ [requestOf s.client (licensePayload s.client l exec)],
            posts := s.posts ++ [postOf s.client params] }))) := by
  refine ⟨fun v => ?_, fun v => ?_, fun fs h => ?_,
    fun s fs h => ⟨fun params hc => Init_accepted s fs params hc h,
      fun u p exec params hc => ?_, fun u p l exec params hc => ?_,
      fun l exec params hc => ?_⟩,
    fun s fs h => ⟨fun params hc => Init_rejected s fs params hc h,
      fun u p exec params hc => ?_, fun u p l exec params hc => ?_,
      fun l exec params hc => ?_⟩⟩
  · cases v <;> simp [truthy]
  · cases v <;> simp [truthy]
    rename_i text
    by_cases h0 : text = "0" <;> simp [h0]
  · simp [lookupField, h]
  · rw [Login_data u p exec params s hc, handleUserResponse_accepted _ _ _ fs h]
  · rw [Register_data u p l exec params s hc, handleUserResponse_accepted _ _ _ fs h]
  · rw [License_data l exec params s hc, handleUserResponse_accepted _ _ _ fs h]
  · rw [Login_data u p exec params s hc, handleUserResponse_rejected _ _ _ fs h]
  · rw [Register_data u p l exec params s hc, handleUserResponse_rejected _ _ _ fs h]
  · rw [License_data l exec params s hc, handleUserResponse_rejected _ _ _ fs h]

theorem success_branch_is_truthiness_witness :
    truthy (lookupField [("success", JVal.str "false")] "success") = true ∧
    URLSearchParams (initPayload (freshSys demoClient).client) = Except.ok demoInitParams ∧
    Init (HttpResult.data (JVal.obj [("success", JVal.str "false")])) (freshSys demoClient)
      = (Res.ok (),
        { client := { demoClient with sessionid := JVal.undefined },
          console := [logged [JVal.str "Connecting..."],
            logged [JVal.str "✅ Initialized Successfully!"]],
          requests := [requestOf demoClient (initPayload demoClient)],
          posts := [postOf demoClient demoInitParams] }) :=
  ⟨rfl, rfl, (success_branch_is_truthiness.2.2.2.1 (freshSys demoClient)
    [("success", JVal.str "false")] rfl).1 demoInitParams rfl⟩

/-! ## C8: the user record is printed as received -/

theorem intercalate_go_append (sep : String) : ∀ (rest : List String) (x acc : String),
    String.intercalate.go (x ++ acc) sep rest = x ++ String.intercalate.go acc sep rest := by
  intro rest
  induction rest with
  | nil => intro x acc; rfl
  | cons c cs ih =>
    intro x acc
    have h1 : String.intercalate.go (x ++ acc) sep (c :: cs)
        = String.intercalate.go (x ++ acc ++ sep ++ c) sep cs := rfl
    have h2 : String.intercalate.go acc sep (c :: cs)
        = String.intercalate.go (acc ++ sep ++ c) sep cs := rfl
    rw [h1, h2, ← ih x (acc ++ sep ++ c)]
    simp only [String.append_assoc]

/-- An array of strings converts to the strings separated by commas. -/
theorem jsJoin_strings : ∀ ts : List String,
    jsJoin (ts.map JVal.str) = Except.ok (",".intercalate ts) := by
  intro ts
  induction ts with
  | nil => rfl
  | cons a as ih =>
    cases as with
    | nil => rfl
    | cons b bs =>
      have h1 : jsJoin ((a :: b :: bs).map JVal.str)
          = match jsJoin ((b :: bs).map JVal.str) with
            | .error e => .error e
            | .ok more => .ok (a ++ "," ++ more) := rfl
      rw [h1, ih]
      have h2 : ",".intercalate (a :: b :: bs)
          = String.intercalate.go (a ++ "," ++ b) "," bs := rfl
      have h3 : ",".intercalate (b :: bs) = String.intercalate.go b "," bs := rfl
      rw [h2, h3, intercalate_go_append]

theorem subscriptionLine_object (g : List (String × JVal)) (label expiry : String)
    (hl : jsToString (lookupField g "subscription") = Except.ok label)
    (he : jsToString (lookupField g "expiry") = Except.ok expiry) :
    subscriptionLine (JVal.obj g)
      = Except.ok ("  - " ++ label ++ " | Expires: " ++ expiry) := by
  simp [subscriptionLine, getProp, hl, he, bind, Except.bind, pure, Except.pure]

theorem printSubscriptions_objects :
    ∀ (entries : List (List (String × JVal) × String × String)),
      (∀ t ∈ entries, jsToString (lookupField t.1 "subscription") = Except.ok t.2.1 ∧
        jsToString (lookupField t.1 "expiry") = Except.ok t.2.2) →
      ∀ s : Sys, printSubscriptions (entries.map (fun t => JVal.obj t.1)) s
        = (Res.ok (), { s with console := s.console ++ entries.map (fun t =>
            logged [JVal.str ("  - " ++ t.2.1 ++ " | Expires: " ++ t.2.2)]) }) := by
  intro entries
  induction entries with
  | nil => intro _ s; simp [printSubscriptions, Eff.pure_apply]
  | cons t rest ih =>
    intro h s
    have ht := h t (List.mem_cons_self _ _)
    have hrest := ih (fun x hx => h x (List.mem_cons_of_mem _ hx))
    simp [printSubscriptions, Eff.bind_apply, Eff.bind, liftExcept,
      subscriptionLine_object t.1 t.2.1 t.2.2 ht.1 ht.2, consoleLog, hrest, logged]

theorem printUserInfo_objects (fs : List (String × JVal))
    (entries : List (List (String × JVal) × String × String))
    (hsubs : lookupField fs "subscriptions" = JVal.arr (entries.map (fun t => JVal.obj t.1)))
    (htext : ∀ t ∈ entries, jsToString (lookupField t.1 "subscription") = Except.ok t.2.1 ∧
      jsToString (lookupField t.1 "expiry") = Except.ok t.2.2) (s : Sys) :
    printUserInfo (JVal.obj fs) s = (Res.ok (),
      { s with console := s.console ++
          [logged [JVal.str "\n👤 User Info:"],
           logged [JVal.str " Username:", lookupField fs "username"],
           logged [JVal.str " HWID:", lookupField fs "hwid"],
           logged [JVal.str " IP:", lookupField fs "ip"],
           logged [JVal.str " Subscriptions:"]] ++ entries.map (fun t =>
            logged [JVal.str ("  - " ++ t.2.1 ++ " | Expires: " ++ t.2.2)]) }) := by
  simp [printUserInfo, Eff.bind_apply, Eff.bind, liftExcept, getProp, consoleLog, hsubs, truthy,
    iterate, printSubscriptions_objects entries htext, logged]

/-- C8. For every response object with `success: true` that `Login` receives
(its request was converted and posted) whose `info` is an object with
`subscriptions` an array of `n` objects whose `subscription` and `expiry`
convert to text, `Login` returns normally having logged its success line, the
header, then `username`, `hwid` and `ip` as received, the subscriptions
header, and then exactly `n` lines, the `i`-th being
`"  - " ++ label ++ " | Expires: " ++ expiry` for the texts of the
`subscription` and `expiry` of the `i`-th array element, in the order of the
array.  The text of a value is its template-literal conversion: a string is
its own text, a number has its number text, `true`, `false`, `null` and
`undefined` have their names, an object without an own `toString` property
gives `"[object Object]"` and one with such a property cannot be converted,
and an array gives the comma-separated texts of its elements, with `null` and
`undefined` elements empty. -/
theorem Login_prints_info_in_order :
    (∀ (s : Sys) (u p : JVal) (exec : ExecResult) (params : List (String × String))
      (rs fs : List (String × JVal))
      (entries : List (List (String × JVal) × String × String)),
      URLSearchParams (loginPayload s.client u p exec) = Except.ok params →
      lookupField rs "success" = JVal.bool true →
      lookupField rs "info" = JVal.obj fs →
      lookupField fs "subscriptions" = JVal.arr (entries.map (fun t => JVal.obj t.1)) →
      (∀ t ∈ entries, jsToString (lookupField t.1 "subscription") = Except.ok t.2.1 ∧
        jsToString (lookupField t.1 "expiry") = Except.ok t.2.2) →
      Login u p exec (HttpResult.data (JVal.obj rs)) s = (Res.ok (),
        { s with
          console := s.console ++
            [logged [JVal.str "✅ Logged in!"],
             logged [JVal.str "\n👤 User Info:"],
             logged [JVal.str " Username:", lookupField fs "username"],
             logged [JVal.str " HWID:", lookupField fs "hwid"],
             logged [JVal.str " IP:", lookupField fs "ip"],
             logged [JVal.str " Subscriptions:"]] ++
            entries.map (fun t =>
              logged [JVal.str ("  - " ++ t.2.1 ++ " | Expires: " ++ t.2.2)]),
          requests := s.requests ++ [requestOf s.client (loginPayload s.client u p exec)],
          posts := s.posts ++ [postOf s.client params] })) ∧
    (∀ t : String, jsToString (JVal.str t) = Except.ok t) ∧
    (∀ r : String, jsToString (JVal.num r) = Except.ok r) ∧
    jsToString (JVal.bool true) = Except.ok "true" ∧
    jsToString (JVal.bool false) = Except.ok "false" ∧
    jsToString JVal.null = Except.ok "null" ∧
    jsToString JVal.undefined = Except.ok "undefined" ∧
    (∀ g : List (String × JVal), g.lookup "toString" = none →
      jsToString (JVal.obj g) = Except.ok "[object Object]") ∧
    (∀ (g : List (String × JVal)) (v : JVal), g.lookup "toString" = some v →
      jsToString (JVal.obj g)
        = Except.error (JErr.typeError "Cannot convert object to primitive value")) ∧
    (∀ ts : List String, jsToString (JVal.arr (ts.map JVal.str))
      = Except.ok (",".intercalate ts)) ∧
    jsToString (JVal.arr [JVal.str "a", JVal.null, JVal.undefined, JVal.num "1",
      JVal.arr [JVal.str "b", JVal.str "c"], JVal.bool true]) = Except.ok "a,,,1,b,c,true" ∧
    jsToString (JVal.arr [JVal.str "a", JVal.obj [("toString", JVal.num "0")]])
      = Except.error (JErr.typeError "Cannot convert object to primitive value") := by
  refine ⟨?_, fun _ => rfl, fun _ => rfl, rfl, rfl, rfl, rfl, fun g h => ?_, fun g v h => ?_,
    fun ts => ?_, rfl, rfl⟩
  · intro s u p exec params rs fs entries hconv hsucc hinfo hsubs htext
    rw [Login_data u p exec params s hconv,
      handleUserResponse_accepted _ _ _ rs (truthy_of_bool_true hsucc), hinfo,
      printUserInfo_objects fs entries hsubs htext]
    simp
  · simp [jsToString, h]
  · simp [jsToString, h]
  · rw [← jsJoin_strings ts]
    simp [jsToString]

theorem Login_prints_info_in_order_witness :
    URLSearchParams (loginPayload (freshSys demoClient).client (JVal.str "bob")
      (JVal.str "pw1") ExecResult.throws) = Except.ok demoLoginParams ∧
    Login (JVal.str "bob") (JVal.str "pw1") ExecResult.throws
        (HttpResult.data (JVal.obj demoLoginOk)) (freshSys demoClient)
      = (Res.ok (),
        { client := demoClient,
          console :=
            [logged [JVal.str "✅ Logged in!"],
             logged [JVal.str "\n👤 User Info:"],
             logged [JVal.str " Username:", JVal.str "bob"],
             logged [JVal.str " HWID:", JVal.str "XYZ"],
             logged [JVal.str " IP:", JVal.str "1.2.3.4"],
             logged [JVal.str " Subscriptions:"],
             logged [JVal.str "  - premium | Expires: 2025-01-01"]],
          requests := [requestOf demoClient (loginPayload demoClient (JVal.str "bob")
            (JVal.str "pw1") ExecResult.throws)],
          posts := [postOf demoClient demoLoginParams] }) :=
  ⟨rfl, (Login_prints_info_in_order.1 (freshSys demoClient) (JVal.str "bob") (JVal.str "pw1")
    ExecResult.throws demoLoginParams demoLoginOk demoInfo
    [([("subscription", JVal.str "premium"), ("expiry", JVal.str "2025-01-01")],
      "premium", "2025-01-01")] rfl rfl rfl rfl
    (fun t ht => by
      rw [List.mem_singleton] at ht
      subst ht
      exact ⟨rfl, rfl⟩)).trans rfl⟩

end AuthSecureJS
